import Mathlib

/-!
Verification of the wp-cloud-atomic-sdk request/response pipeline and
asynchronous-operation tracking model, as a shallow embedding of the Python
source (atomic_sdk/api/base.py, atomic_sdk/models.py, atomic_sdk/api/sites.py,
atomic_sdk/api/tasks.py, examples/migrations/03_run_preflight_and_monitor.py).

Conventions of the embedding:
- decoded JSON documents (Python objects produced by response.json()) are
  values of the inductive type JVal;
- Python dicts are ordered association lists; assignment d[k] = v overwrites
  in place (keeping the original position) or appends, exactly as CPython
  dicts do;
- raised Python exceptions are explicit constructors of result types;
- wall-clock time in the Job.wait polling loop is idealized: a status fetch
  is instantaneous and each sleep advances elapsed time by poll_interval
  seconds, so the loop body runs exactly while elapsed < timeout.
-/

namespace AtomicSDK

/-- A decoded JSON document (the Python object returned by response.json()). -/
inductive JVal where
  | null
  | bool (b : Bool)
  | num (n : Int)
  | str (s : String)
  | arr (elems : List JVal)
  | obj (fields : List (String × JVal))

/-- Whether a decoded JSON value is a Python dict (only dicts have .get). -/
def JVal.isObj : JVal → Bool
  | .obj _ => true
  | _ => false

/-- Python dict lookup d.get(key): the value stored under the first (unique)
occurrence of the key, or none. -/
def dictGet (fields : List (String × JVal)) (key : String) : Option JVal :=
  match fields with
  | [] => none
  | (k, v) :: rest => if k = key then some v else dictGet rest key

/-- Python dict assignment d[key] = v: overwrite in place if the key exists,
else append at the end (CPython insertion-order semantics). -/
def dictSet (fields : List (String × JVal)) (key : String) (v : JVal) :
    List (String × JVal) :=
  match fields with
  | [] => [(key, v)]
  | (k, w) :: rest =>
      if k = key then (key, v) :: rest else (k, w) :: dictSet rest key v

/-- The typed exception taxonomy of atomic_sdk/exceptions.py. Every class
carries a message (an arbitrary Python object in general, hence JVal) and an
optional HTTP status code. -/
inductive ApiError where
  | atomicAPIError (message : JVal) (statusCode : Option Nat)
  | authenticationError (message : JVal) (statusCode : Option Nat)
  | invalidRequestError (message : JVal) (statusCode : Option Nat)
  | notFoundError (message : JVal) (statusCode : Option Nat)
  | serverError (message : JVal) (statusCode : Option Nat)

/-- Untyped Python exceptions that can escape the SDK. -/
inductive PyErr where
  | attributeError
deriving DecidableEq

/-- One observed HTTP response: its status code, the outcome of decoding its
body as JSON (error text of the JSONDecodeError when the body does not parse),
and its raw text. -/
structure HttpResponse where
  status : Nat
  decoded : Except String JVal
  text : String

/-- What the requests call observes: a response, or a transport-level failure
(requests.exceptions.RequestException with no response). -/
inductive TransportOutcome where
  | response (r : HttpResponse)
  | requestException (message : String)

/-- requests.Response.raise_for_status raises HTTPError exactly for status
codes 400-599. -/
def raise_for_status (status : Nat) : Bool :=
  decide (400 ≤ status ∧ status < 600)

/-- The status-code dispatch of ResourceClient._request (base.py lines
104-113): 404, then the 4xx range, then the 5xx range, then the generic
fallback, each carrying the extracted message and the status code. -/
def classifyHttpError (message : JVal) (status_code : Nat) : ApiError :=
  if status_code = 404 then .notFoundError message (some status_code)
  else if 400 ≤ status_code ∧ status_code < 500 then
    .invalidRequestError message (some status_code)
  else if 500 ≤ status_code ∧ status_code < 600 then
    .serverError message (some status_code)
  else .atomicAPIError message (some status_code)

/-- Result of ResourceClient._request: a normal return of the decoded JSON
body, a raised typed ApiError, or a raised untyped Python exception. -/
inductive RequestResult where
  | ok (v : JVal)
  | raisedApi (e : ApiError)
  | raisedPy (e : PyErr)

/-- The error-message extraction of _request (base.py lines 98-102):
error_data = e.response.json() (JSONDecodeError is caught and falls back to
the raw text), then error_data.get("message", e.response.text). The .get call
raises AttributeError when the decoded error body is not a dict. -/
def extract_error_message (r : HttpResponse) : Except PyErr JVal :=
  match r.decoded with
  | .error _ => .ok (.str r.text)
  | .ok (.obj fields) => .ok ((dictGet fields "message").getD (.str r.text))
  | .ok _ => .error .attributeError

/-- ResourceClient._request (base.py lines 74-116). On a response,
raise_for_status sends 4xx/5xx to the error-classification branch; otherwise
the decoded JSON body is returned (an undecodable 2xx body raises
JSONDecodeError, a RequestException subclass, caught by the final handler).
A transport-level RequestException becomes a generic AtomicAPIError with no
status code. -/
def request_ (url : String) (t : TransportOutcome) : RequestResult :=
  match t with
  | .requestException message =>
      .raisedApi (.atomicAPIError
        (.str ("Request failed for " ++ url ++ ": " ++ message)) none)
  | .response r =>
      if raise_for_status r.status then
        match extract_error_message r with
        | .error e => .raisedPy e
        | .ok message => .raisedApi (classifyHttpError message r.status)
      else
        match r.decoded with
        | .ok v => .ok v
        | .error errText =>
            .raisedApi (.atomicAPIError
              (.str ("Request failed for " ++ url ++ ": " ++ errText)) none)

/-- The envelope unwrapping response.get("data", \x7b\x7d) shared by _get and
_post (base.py lines 35 and 50): on a dict, the data field when present, else
the empty dict; on any non-dict body, .get raises AttributeError. -/
def envelope_data (v : JVal) : Except PyErr JVal :=
  match v with
  | .obj fields => .ok ((dictGet fields "data").getD (.obj []))
  | _ => .error .attributeError

/-- ResourceClient._get (base.py lines 23-35): _request, then the envelope
unwrapping of the returned body. -/
def get_ (url : String) (t : TransportOutcome) : RequestResult :=
  match request_ url t with
  | .ok v =>
      match envelope_data v with
      | .ok d => .ok d
      | .error e => .raisedPy e
  | r => r

/-- ResourceClient._post (base.py lines 37-50): identical response handling
to _get. -/
def post_ (url : String) (t : TransportOutcome) : RequestResult :=
  match request_ url t with
  | .ok v =>
      match envelope_data v with
      | .ok d => .ok d
      | .error e => .raisedPy e
  | r => r

/-- One observed raw (byte) HTTP response. -/
structure RawHttpResponse where
  status : Nat
  content : List Nat
  text : String

/-- What the raw session.get call observes. -/
inductive RawTransportOutcome where
  | response (r : RawHttpResponse)
  | requestException (message : String)

/-- The timeout=300 passed by _get_raw (base.py line 65, commented
"Longer timeout for downloads"). -/
def rawDownloadTimeout : Nat := 300

/-- The default request timeout of AtomicClient (client.py, timeout: int = 30). -/
def defaultClientTimeout : Nat := 30

/-- Result of ResourceClient._get_raw: the 2xx body bytes, or a raised
ApiError. -/
inductive RawResult where
  | ok (content : List Nat)
  | raisedApi (e : ApiError)

/-- ResourceClient._get_raw (base.py lines 52-72). The session.get call is
issued with the 300-second download timeout; every HTTPError is re-raised as
the generic AtomicAPIError whose message embeds the status code and body text
(no status_code argument is passed), and a transport-level failure also
becomes a generic AtomicAPIError. -/
def get_raw (url : String) (transport : Nat → RawTransportOutcome) : RawResult :=
  match transport rawDownloadTimeout with
  | .response r =>
      if raise_for_status r.status then
        .raisedApi (.atomicAPIError
          (.str ("HTTP Error for " ++ url ++ ": " ++ toString r.status ++ " " ++ r.text))
          none)
      else .ok r.content
  | .requestException message =>
      .raisedApi (.atomicAPIError
        (.str ("Request failed for " ++ url ++ ": " ++ message)) none)

/-- The service/identifier pair of _get_service_and_identifier. -/
inductive Identifier where
  | intId (n : Int)
  | strId (s : String)
deriving DecidableEq

/-- Result of _get_service_and_identifier: the returned pair, or a raised
ValueError. -/
inductive ResolveResult where
  | ok (service : String) (identifier : Identifier)
  | valueError (message : String)
deriving DecidableEq

/-- Python truthiness of an Optional[str]: None and the empty string are
falsy. -/
def pyTruthyStr (s : Option String) : Bool :=
  match s with
  | none => false
  | some s => decide (s ≠ "")

/-- Python truthiness of an Optional[int]: None and 0 are falsy. -/
def pyTruthyInt (n : Option Int) : Bool :=
  match n with
  | none => false
  | some n => decide (n ≠ 0)

/-- Python truthiness of an Optional non-negative int. -/
def pyTruthyNat (n : Option Nat) : Bool :=
  match n with
  | none => false
  | some n => decide (n ≠ 0)

/-- ResourceClient._get_service_and_identifier (base.py lines 118-141):
if domain: return ("domain", domain); if site_id: return
(client_id_or_name, site_id); else raise ValueError. The tests are Python
truthiness tests. -/
def get_service_and_identifier (client_id_or_name : String)
    (site_id : Option Int) (domain : Option String) : ResolveResult :=
  if pyTruthyStr domain then .ok "domain" (.strId (domain.getD ""))
  else if pyTruthyInt site_id then .ok client_id_or_name (.intId (site_id.getD 0))
  else .valueError "You must provide either a \x27site_id\x27 or a \x27domain\x27."

/-- The statuses Job.wait recognizes as terminal (models.py line 87:
`if current_status in ["success", "failure"]`). -/
def jobTerminalStatuses : List String := ["success", "failure"]

/-- Result of Job.wait: a normally returned status string, or a raised
TimeoutError. -/
inductive JobWaitResult where
  | returned (status : String)
  | raisedTimeout (message : String)
deriving DecidableEq

/-- The body of the Job.wait polling loop (models.py lines 83-91), with fuel
equal to the number of remaining loop iterations and i the index of the next
status fetch: fetch the current status, return it if terminal, else sleep and
repeat; when the iterations are exhausted, raise TimeoutError. -/
def jobWaitAux (status : Nat → String) (job_id timeout : Nat) :
    Nat → Nat → JobWaitResult
  | 0, _ =>
      .raisedTimeout ("Job " ++ toString job_id ++ " did not complete within "
        ++ toString timeout ++ " seconds.")
  | fuel + 1, i =>
      if status i ∈ jobTerminalStatuses then .returned (status i)
      else jobWaitAux status job_id timeout fuel (i + 1)

/-- Number of iterations of the Job.wait loop under the idealized clock: the
loop body runs at elapsed times 0, poll_interval, 2 * poll_interval, ... while
elapsed < timeout, i.e. exactly ceil(timeout / poll_interval) times for a
positive poll_interval. (poll_interval = 0 makes the Python loop spin forever
and is outside this model.) -/
def jobWaitIterations (timeout poll_interval : Nat) : Nat :=
  (timeout + poll_interval - 1) / poll_interval

/-- Job.wait (models.py lines 69-91), for a positive poll_interval. The
status accessor gives the remote job status at the n-th poll. -/
def Job.wait (status : Nat → String) (job_id timeout poll_interval : Nat) :
    JobWaitResult :=
  jobWaitAux status job_id timeout (jobWaitIterations timeout poll_interval) 0

/-- The Task pre-validator _validate_complete (models.py lines 132-136) for a
present string value or an absent field: an empty string becomes None, every
other value is passed through (a non-empty string is then parsed by pydantic
as the completion datetime; we keep the raw timestamp string). -/
def validate_complete (v : Option String) : Option String :=
  match v with
  | some s => if s = "" then none else some s
  | none => none

/-- The parsed fields of a Task (models.py lines 121-136) relevant to
terminality: its id, the validated complete timestamp, and the meta counter
map. -/
structure Task where
  task_id : Int
  complete : Option String
  meta : List (String × JVal)

/-- Parsing a Task status payload: the complete field goes through the
pre-validator, the meta counters are carried verbatim. -/
def parseTask (task_id : Int) (complete : Option String)
    (meta : List (String × JVal)) : Task :=
  { task_id := task_id, complete := validate_complete complete, meta := meta }

/-- Task terminality as used by the repository (examples/tasks/01-03:
`if task_status.complete:`): a Task is terminal when its parsed complete
field is present (a datetime object is always truthy). -/
def taskIsTerminal (t : Task) : Bool := t.complete.isSome

/-- The terminality test of poll_ticket_status
(examples/migrations/03_run_preflight_and_monitor.py line 19:
`if status in ["success", "failure"]`), applied to
summary.get("status"). -/
def ticketStatusTerminal (status : Option JVal) : Bool :=
  match status with
  | some (.str s) => s == "success" || s == "failure"
  | _ => false

/-- Whether the polled ticket status is the failure sentinel (line 20:
`if status == "failure"`), which triggers the optional full-log fetch. -/
def statusIsFailure (status : Option JVal) : Bool :=
  match status with
  | some (.str s) => s == "failure"
  | _ => false

/-- What poll_ticket_status produces when it stops: the status value it
returns and whether the detailed full-log payload was fetched (it is fetched
only to be printed, after terminality is already decided). -/
structure TicketPollOutcome where
  status : Option JVal
  full_log_fetched : Bool

/-- The body of the poll_ticket_status loop (example file lines 14-28), with
fuel bounding the number of polls (the Python loop is `while True`; none
models a run that has not yet reached a terminal summary). -/
def pollTicketAux (get_summary : Nat → List (String × JVal)) :
    Nat → Nat → Option TicketPollOutcome
  | 0, _ => none
  | fuel + 1, i =>
      let status := dictGet (get_summary i) "status"
      if ticketStatusTerminal status then
        some { status := status, full_log_fetched := statusIsFailure status }
      else pollTicketAux get_summary fuel (i + 1)

/-- poll_ticket_status (examples/migrations/03_run_preflight_and_monitor.py
lines 12-28): poll the summary endpoint until the status is terminal. -/
def poll_ticket_status (get_summary : Nat → List (String × JVal)) (fuel : Nat) :
    Option TicketPollOutcome :=
  pollTicketAux get_summary fuel 0

/-- SitesClient._build_log_payload (sites.py lines 14-29): pop the filters
dict, copy the remaining entries under data[key], then for every filter
column write each of its values (a scalar is wrapped in a singleton list)
under the single dict key data[filter][column][] - a plain dict assignment. -/
def build_log_payload (data : List (String × JVal)) : List (String × JVal) :=
  let filters := (dictGet data "filters").getD (.obj [])
  let remaining := data.filter (fun kv => kv.1 != "filters")
  let payload := remaining.foldl
    (fun p kv => dictSet p ("data[" ++ kv.1 ++ "]") kv.2) []
  match filters with
  | .obj ffields =>
      if ffields.isEmpty then payload
      else
        ffields.foldl (fun p fkv =>
          let f_values := match fkv.2 with | .arr xs => xs | v => [v]
          f_values.foldl
            (fun p v => dictSet p ("data[filter][" ++ fkv.1 ++ "][]") v) p)
          payload
  | _ => payload

/-- The payload_list construction of TasksClient.create for the
run-wp-cli-command task type (tasks.py lines 43-59): an explicit ordered list
of (key, value) pairs, with one ("args[]", arg) entry appended per wp-cli
argument. -/
def tasksCreateWpCliPayload (send_webhook_for : String)
    (site_count_limit : Option Nat) (wp_cli_args : List String) :
    Except String (List (String × String)) :=
  let payload_list := [("send_webhook_for", send_webhook_for)]
  let payload_list :=
    if pyTruthyNat site_count_limit then
      payload_list ++ [("site_count_limit", toString (site_count_limit.getD 0))]
    else payload_list
  if wp_cli_args.isEmpty then .error "`wp_cli_args` is required."
  else .ok (payload_list ++ wp_cli_args.map (fun arg => ("args[]", arg)))

/-! ## Helper lemmas about the polling loops -/

/-- If no fetched status is ever terminal, the Job.wait loop exhausts its
iterations and raises TimeoutError, whatever the fuel. -/
theorem jobWaitAux_never_terminal (status : Nat → String) (job_id timeout : Nat)
    (h : ∀ i, status i ∉ jobTerminalStatuses) :
    ∀ fuel i, jobWaitAux status job_id timeout fuel i =
      .raisedTimeout ("Job " ++ toString job_id ++ " did not complete within "
        ++ toString timeout ++ " seconds.") := by
  intro fuel
  induction fuel with
  | zero => intro i; rfl
  | succ f ih =>
      intro i
      simp only [jobWaitAux]
      rw [if_neg (h i)]
      exact ih (i + 1)

/-- The Job.wait loop stops at the first terminal status and returns it, when
enough iterations remain. -/
theorem jobWaitAux_first (status : Nat → String) (job_id timeout : Nat) :
    ∀ N fuel i, status (i + N) ∈ jobTerminalStatuses →
      (∀ k, k < N → status (i + k) ∉ jobTerminalStatuses) →
      N < fuel →
      jobWaitAux status job_id timeout fuel i = .returned (status (i + N)) := by
  intro N
  induction N with
  | zero =>
      intro fuel i hterm _ hfuel
      rw [Nat.add_zero] at hterm ⊢
      obtain ⟨f, rfl⟩ : ∃ f, fuel = f + 1 := ⟨fuel - 1, by omega⟩
      simp only [jobWaitAux]
      rw [if_pos hterm]
  | succ N ih =>
      intro fuel i hterm hmin hfuel
      obtain ⟨f, rfl⟩ : ∃ f, fuel = f + 1 := ⟨fuel - 1, by omega⟩
      simp only [jobWaitAux]
      rw [if_neg (by simpa using hmin 0 (Nat.succ_pos N))]
      have h1 : status (i + 1 + N) ∈ jobTerminalStatuses := by
        rw [show i + 1 + N = i + (N + 1) by omega] at *
        exact hterm
      have h2 : ∀ k, k < N → status (i + 1 + k) ∉ jobTerminalStatuses := by
        intro k hk
        rw [show i + 1 + k = i + (k + 1) by omega]
        exact hmin (k + 1) (by omega)
      have h3 := ih f (i + 1) h1 h2 (by omega)
      rw [h3, show i + 1 + N = i + (N + 1) by omega]

/-- The index of the first terminal status is below the iteration count as
soon as its poll time lies before the timeout. -/
theorem lt_jobWaitIterations (timeout poll_interval N : Nat)
    (hpoll : 0 < poll_interval) (h : N * poll_interval < timeout) :
    N < jobWaitIterations timeout poll_interval := by
  have h1 : N + 1 ≤ (timeout + poll_interval - 1) / poll_interval := by
    rw [Nat.le_div_iff_mul_le hpoll, Nat.succ_mul]
    set x := N * poll_interval
    omega
  simpa [jobWaitIterations] using h1

/-- The ticket polling loop stops at the first terminal summary status and
returns it, when enough fuel remains. -/
theorem pollTicketAux_first (get_summary : Nat → List (String × JVal)) :
    ∀ N fuel i, ticketStatusTerminal (dictGet (get_summary (i + N)) "status") = true →
      (∀ k, k < N → ticketStatusTerminal (dictGet (get_summary (i + k)) "status") = false) →
      N < fuel →
      pollTicketAux get_summary fuel i =
        some { status := dictGet (get_summary (i + N)) "status",
               full_log_fetched := statusIsFailure (dictGet (get_summary (i + N)) "status") } := by
  intro N
  induction N with
  | zero =>
      intro fuel i hterm _ hfuel
      rw [Nat.add_zero] at hterm ⊢
      obtain ⟨f, rfl⟩ : ∃ f, fuel = f + 1 := ⟨fuel - 1, by omega⟩
      simp only [pollTicketAux]
      rw [if_pos hterm]
  | succ N ih =>
      intro fuel i hterm hmin hfuel
      obtain ⟨f, rfl⟩ : ∃ f, fuel = f + 1 := ⟨fuel - 1, by omega⟩
      simp only [pollTicketAux]
      rw [if_neg (by simpa using hmin 0 (Nat.succ_pos N))]
      have h1 : ticketStatusTerminal (dictGet (get_summary (i + 1 + N)) "status") = true := by
        rw [show i + 1 + N = i + (N + 1) by omega]
        exact hterm
      have h2 : ∀ k, k < N →
          ticketStatusTerminal (dictGet (get_summary (i + 1 + k)) "status") = false := by
        intro k hk
        rw [show i + 1 + k = i + (k + 1) by omega]
        exact hmin (k + 1) (by omega)
      have h3 := ih f (i + 1) h1 h2 (by omega)
      rw [h3, show i + 1 + N = i + (N + 1) by omega]

/-! ## Claim C1 -/

/-- Claim C1, as stated, is false on the code: with a status accessor that
always reports the non-terminal status "queued" and a timeout (1s) shorter
than one poll interval (5s), Job.wait raises TimeoutError instead of
returning a timeout outcome. -/
theorem jobWait_timeout_is_exception :
    Job.wait (fun _ => "queued") 2 1 5 =
      .raisedTimeout "Job 2 did not complete within 1 seconds." := rfl

/-- Claim C1 (amended): for every status accessor that always reports a
non-terminal status and every positive timeout shorter than one poll
interval, Job.wait raises a TimeoutError naming the job and the timeout - an
outcome distinct from returning any status, in particular distinct from a
returned Failed status - rather than returning a Timeout value. -/
theorem jobWait_timeout_raises (status : Nat → String)
    (job_id timeout poll_interval : Nat)
    (hrun : ∀ i, status i ∉ jobTerminalStatuses)
    (_hpos : 0 < timeout) (_hshort : timeout < poll_interval) :
    Job.wait status job_id timeout poll_interval =
      .raisedTimeout ("Job " ++ toString job_id ++ " did not complete within "
        ++ toString timeout ++ " seconds.") ∧
    ∀ s : String, Job.wait status job_id timeout poll_interval ≠ .returned s := by
  have h : Job.wait status job_id timeout poll_interval =
      .raisedTimeout ("Job " ++ toString job_id ++ " did not complete within "
        ++ toString timeout ++ " seconds.") :=
    jobWaitAux_never_terminal status job_id timeout hrun
      (jobWaitIterations timeout poll_interval) 0
  refine ⟨h, ?_⟩
  intro s hcontra
  rw [h] at hcontra
  exact JobWaitResult.noConfusion hcontra

/-- Witness for jobWait_timeout_raises at the concrete accessor constantly
returning "queued", timeout 1, poll interval 5. -/
theorem jobWait_timeout_raises_witness :
    Job.wait (fun _ => "queued") 1 1 5 =
      .raisedTimeout ("Job " ++ toString 1 ++ " did not complete within "
        ++ toString 1 ++ " seconds.") ∧
    Job.wait (fun _ => "queued") 1 1 5 ≠ .returned "failure" := by
  have h := jobWait_timeout_raises (fun _ => "queued") 1 1 5
    (fun i => by show "queued" ∉ jobTerminalStatuses; decide) (by decide) (by decide)
  exact ⟨h.1, h.2 "failure"⟩

/-! ## Claim C2 -/

/-- Claim C2, as stated, is false on the code: Job.wait does not treat
"failed" or "error" as terminal. On an accessor constantly reporting "failed"
(resp. "error"), with timeout 10 and poll interval 1, it polls until the
deadline and raises TimeoutError instead of returning the status at its first
occurrence. -/
theorem jobWait_failed_not_terminal :
    Job.wait (fun _ => "failed") 3 10 1 =
      .raisedTimeout "Job 3 did not complete within 10 seconds." ∧
    Job.wait (fun _ => "error") 3 10 1 =
      .raisedTimeout "Job 3 did not complete within 10 seconds." := ⟨rfl, rfl⟩

/-- Claim C2 (amended): Job.wait treats exactly the strings "success" and
"failure" as terminal; it stops and returns the status on the first
occurrence of either of these two values, and continues polling on every
other status string (including "failed" and "error"), provided the first
terminal poll happens before the timeout. -/
theorem jobWait_terminal_set (status : Nat → String)
    (job_id timeout poll_interval N : Nat)
    (hpoll : 0 < poll_interval)
    (hterm : status N = "success" ∨ status N = "failure")
    (hmin : ∀ i, i < N → status i ≠ "success" ∧ status i ≠ "failure")
    (hreach : N * poll_interval < timeout) :
    (∀ s : String, s ∈ jobTerminalStatuses ↔ (s = "success" ∨ s = "failure")) ∧
    Job.wait status job_id timeout poll_interval = .returned (status N) := by
  constructor
  · intro s
    simp [jobTerminalStatuses]
  · have hf : N < jobWaitIterations timeout poll_interval :=
      lt_jobWaitIterations timeout poll_interval N hpoll hreach
    have hterm2 : status (0 + N) ∈ jobTerminalStatuses := by
      rw [Nat.zero_add]
      rcases hterm with h | h <;> simp [jobTerminalStatuses, h]
    have hmin2 : ∀ k, k < N → status (0 + k) ∉ jobTerminalStatuses := by
      intro k hk
      rw [Nat.zero_add]
      have h := hmin k hk
      simp [jobTerminalStatuses, h.1, h.2]
    have h := jobWaitAux_first status job_id timeout N
      (jobWaitIterations timeout poll_interval) 0 hterm2 hmin2 hf
    simpa using h

/-- Witness for jobWait_terminal_set: the accessor reports "error" three
times and then "failure"; the wait returns "failure" at its first occurrence
(and polled past the "error" reports). -/
theorem jobWait_terminal_set_witness :
    Job.wait (fun i => if i < 3 then "error" else "failure") 1 10 1 =
      .returned "failure" := by
  have h := jobWait_terminal_set (fun i => if i < 3 then "error" else "failure")
    1 10 1 3 (by decide) (by decide) (by decide) (by decide)
  simpa using h.2

/-! ## Claim C3 -/

/-- Claim C3, as stated, is false on the code: an envelope-less list body
[1, 2, 3] is not returned as-is but raises AttributeError (a list has no
.get), and an object body without a data field yields the empty dict rather
than the whole decoded body. -/
theorem get_envelope_fallback_counterexample :
    get_ "u" (.response ⟨200, .ok (.arr [.num 1, .num 2, .num 3]), "[1, 2, 3]"⟩) =
      .raisedPy .attributeError ∧
    get_ "u" (.response ⟨200, .ok (.obj [("id", .num 7)]), ""⟩) =
      .ok (.obj []) := ⟨rfl, rfl⟩

/-- Claim C3 (amended): for every 2xx JSON response whose body decodes to a
JSON object, _get and _post return the value of the data field when present
and otherwise the empty dict; a non-object body such as [1, 2, 3] raises
AttributeError instead of being returned as-is. -/
theorem get_post_data_envelope (url text : String) (status : Nat)
    (fields : List (String × JVal)) (v : JVal)
    (h2xx : raise_for_status status = false) :
    (get_ url (.response ⟨status, .ok (.obj fields), text⟩) =
        .ok ((dictGet fields "data").getD (.obj [])) ∧
      post_ url (.response ⟨status, .ok (.obj fields), text⟩) =
        .ok ((dictGet fields "data").getD (.obj []))) ∧
    (v.isObj = false →
      get_ url (.response ⟨status, .ok v, text⟩) = .raisedPy .attributeError ∧
      post_ url (.response ⟨status, .ok v, text⟩) = .raisedPy .attributeError) := by
  constructor
  · constructor <;> simp [get_, post_, request_, h2xx, envelope_data]
  · intro hv
    constructor <;> cases v <;>
      simp_all [get_, post_, request_, h2xx, envelope_data, JVal.isObj]

/-- Witness for get_post_data_envelope at the representative envelope with
data {"data": 7} and at the envelope-less list body. -/
theorem get_post_data_envelope_witness :
    get_ "u" (.response ⟨200, .ok (.obj [("data", .num 7)]), ""⟩) = .ok (.num 7) ∧
    post_ "u" (.response ⟨201, .ok (.arr []), ""⟩) = .raisedPy .attributeError := by
  have h1 := get_post_data_envelope "u" "" 200 [("data", .num 7)] (.arr []) (by decide)
  have h2 := get_post_data_envelope "u" "" 201 [] (.arr []) (by decide)
  exact ⟨h1.1.1, (h2.2 (by decide)).2⟩

/-! ## Claim C4 -/

/-- Claim C4 is right and the code is wrong (code bug): the []-suffixed key
data[filter][column][] is the array-style form-field convention for repeated
entries (one per value), and TasksClient.create honors the convention with an
ordered list of tuples, but SitesClient._build_log_payload assigns the
repeated key into a dict, so two values for the filter column "status"
collapse to a single entry holding only the last value "500". -/
theorem build_log_payload_collapses :
    build_log_payload [("filters", .obj [("status", .arr [.str "404", .str "500"])])] =
      [("data[filter][status][]", .str "500")] ∧
    tasksCreateWpCliPayload "none" none ["db", "size"] =
      .ok [("send_webhook_for", "none"), ("args[]", "db"), ("args[]", "size")] :=
  ⟨rfl, rfl⟩

/-! ## Claim C5 -/

/-- Claim C5, as stated, is false on the code: an HTTP 500 response whose
body decodes to the JSON array [1, 2] does not raise a typed ServerError -
the message extraction error_data.get(...) raises an untyped AttributeError
that escapes _request. -/
theorem request_nonobject_error_body :
    request_ "u" (.response ⟨500, .ok (.arr [.num 1, .num 2]), "[1, 2]"⟩) =
      .raisedPy .attributeError := rfl

/-- Claim C5 (amended): for every HTTP error response whose body either fails
to decode as JSON or decodes to a JSON object, _request raises exactly one
typed error determined solely by the status code - NotFoundError iff the
status is 404, InvalidRequestError iff it lies in 400-499 and is not 404,
ServerError iff it lies in 500-599, and the generic AtomicAPIError carrying
the status code for any other status fed to the classifier - and a
transport-level failure with no response raises the generic AtomicAPIError
with no status code. (An error body decoding to a non-object JSON value
instead escapes as an untyped AttributeError.) -/
theorem request_error_classification :
    (∀ (message : JVal) (status : Nat),
      (classifyHttpError message status = .notFoundError message (some status) ↔
        status = 404) ∧
      (classifyHttpError message status = .invalidRequestError message (some status) ↔
        (400 ≤ status ∧ status < 500 ∧ status ≠ 404)) ∧
      (classifyHttpError message status = .serverError message (some status) ↔
        (500 ≤ status ∧ status < 600)) ∧
      (classifyHttpError message status = .atomicAPIError message (some status) ↔
        (status < 400 ∨ 600 ≤ status))) ∧
    (∀ (url : String) (r : HttpResponse) (errText : String),
      r.decoded = .error errText → raise_for_status r.status = true →
      request_ url (.response r) =
        .raisedApi (classifyHttpError (.str r.text) r.status)) ∧
    (∀ (url : String) (r : HttpResponse) (fields : List (String × JVal)),
      r.decoded = .ok (.obj fields) → raise_for_status r.status = true →
      request_ url (.response r) =
        .raisedApi (classifyHttpError ((dictGet fields "message").getD (.str r.text)) r.status)) ∧
    (∀ (url message : String),
      request_ url (.requestException message) =
        .raisedApi (.atomicAPIError
          (.str ("Request failed for " ++ url ++ ": " ++ message)) none)) := by
  refine ⟨fun message status => ?_, fun url r errText hd hs => ?_,
    fun url r fields hd hs => ?_, fun url message => rfl⟩
  · unfold classifyHttpError
    split_ifs with h1 h2 h3 <;> refine ⟨?_, ?_, ?_, ?_⟩ <;> simp_all <;> omega
  · simp [request_, extract_error_message, hd, hs]
  · simp [request_, extract_error_message, hd, hs]

/-- Witness for request_error_classification: the classifier at status 404,
and the transport-failure path, at concrete inputs. -/
theorem request_error_classification_witness :
    classifyHttpError (.str "m") 404 = .notFoundError (.str "m") (some 404) ∧
    request_ "u" (.requestException "boom") =
      .raisedApi (.atomicAPIError
        (.str ("Request failed for " ++ "u" ++ ": " ++ "boom")) none) := by
  refine ⟨(request_error_classification.1 (.str "m") 404).1.mpr rfl, ?_⟩
  exact request_error_classification.2.2.2 "u" "boom"

/-! ## Claim C6 -/

/-- Claim C6, as stated, is false on the code: a 404 raw download does not go
through the typed-error taxonomy - _get_raw raises the generic AtomicAPIError
whose message merely embeds the status code, not a NotFoundError. -/
theorem get_raw_404_not_typed :
    get_raw "u" (fun _ => .response ⟨404, [1, 2], "nope"⟩) =
      .raisedApi (.atomicAPIError (.str "HTTP Error for u: 404 nope") none) ∧
    get_raw "u" (fun _ => .response ⟨404, [1, 2], "nope"⟩) ≠
      .raisedApi (.notFoundError (.str "nope") (some 404)) := by
  refine ⟨rfl, fun h => ?_⟩
  rw [show get_raw "u" (fun _ => .response ⟨404, [1, 2], "nope"⟩) =
      .raisedApi (.atomicAPIError (.str "HTTP Error for u: 404 nope") none) from rfl] at h
  injection h with h2
  exact ApiError.noConfusion h2

/-- Claim C6 (amended): _get_raw skips JSON decoding, returns the 2xx body
bytes unmodified, and issues the request with the long 300-second download
timeout (longer than the 30-second client default); but it does not share
getJSON/postJSON's typed-error classification - every HTTP error response,
404 included, raises the generic AtomicAPIError whose message embeds the
status code and body text (and whose status_code attribute is unset), and a
transport-level failure also raises the generic AtomicAPIError. -/
theorem get_raw_error_handling :
    (∀ (url : String) (transport : Nat → RawTransportOutcome) (r : RawHttpResponse),
      transport rawDownloadTimeout = .response r → raise_for_status r.status = false →
      get_raw url transport = .ok r.content) ∧
    (∀ (url : String) (transport : Nat → RawTransportOutcome) (r : RawHttpResponse),
      transport rawDownloadTimeout = .response r → raise_for_status r.status = true →
      get_raw url transport = .raisedApi (.atomicAPIError
        (.str ("HTTP Error for " ++ url ++ ": " ++ toString r.status ++ " " ++ r.text))
        none)) ∧
    (∀ (url : String) (transport : Nat → RawTransportOutcome) (message : String),
      transport rawDownloadTimeout = .requestException message →
      get_raw url transport = .raisedApi (.atomicAPIError
        (.str ("Request failed for " ++ url ++ ": " ++ message)) none)) ∧
    (rawDownloadTimeout = 300 ∧ defaultClientTimeout < rawDownloadTimeout) := by
  refine ⟨fun url transport r ht hs => ?_, fun url transport r ht hs => ?_,
    fun url transport message ht => ?_, rfl, by decide⟩
  · unfold get_raw
    rw [ht]
    simp [hs]
  · unfold get_raw
    rw [ht]
    simp [hs]
  · unfold get_raw
    rw [ht]

/-- Witness for get_raw_error_handling: a successful 200 download of the
bytes [7, 8], and a failing 503 download, at concrete transports. -/
theorem get_raw_error_handling_witness :
    get_raw "u" (fun _ => .response ⟨200, [7, 8], ""⟩) = .ok [7, 8] ∧
    get_raw "u" (fun _ => .response ⟨503, [], "down"⟩) =
      .raisedApi (.atomicAPIError
        (.str ("HTTP Error for " ++ "u" ++ ": " ++ toString 503 ++ " " ++ "down"))
        none) := by
  refine ⟨?_, ?_⟩
  · exact get_raw_error_handling.1 "u" (fun _ => .response ⟨200, [7, 8], ""⟩)
      ⟨200, [7, 8], ""⟩ rfl (by decide)
  · exact get_raw_error_handling.2.1 "u" (fun _ => .response ⟨503, [], "down"⟩)
      ⟨503, [], "down"⟩ rfl (by decide)

/-! ## Claim C7 -/

/-- Claim C7 (confirmed): _get_service_and_identifier is total and
deterministic. Whenever a domain is given (a non-empty string, the Python
truthiness test of the source), it returns ("domain", domain) regardless of
the site id; when no domain is given but a (nonzero) site id is, it returns
(client_id_or_name, site_id); when neither is given it raises ValueError -
the function is pure and touches no transport, so no network request can have
been issued. -/
theorem service_identifier_total (client_id_or_name : String)
    (site_id : Option Int) (domain : Option String) :
    (∀ d : String, domain = some d → d ≠ "" →
      get_service_and_identifier client_id_or_name site_id domain =
        .ok "domain" (.strId d)) ∧
    (pyTruthyStr domain = false →
      ∀ n : Int, site_id = some n → n ≠ 0 →
      get_service_and_identifier client_id_or_name site_id domain =
        .ok client_id_or_name (.intId n)) ∧
    (pyTruthyStr domain = false → pyTruthyInt site_id = false →
      get_service_and_identifier client_id_or_name site_id domain =
        .valueError "You must provide either a \x27site_id\x27 or a \x27domain\x27.") := by
  refine ⟨?_, ?_, ?_⟩
  · intro d hd hne
    subst hd
    simp [get_service_and_identifier, pyTruthyStr, hne]
  · intro hdom n hn hne
    subst hn
    simp [get_service_and_identifier, hdom, pyTruthyInt, hne]
  · intro hdom hsite
    simp [get_service_and_identifier, hdom, hsite]

/-- Witness for service_identifier_total: with both a domain and a site id
the domain wins; with only a site id the client identifier is used; with
neither the call is rejected. -/
theorem service_identifier_total_witness :
    get_service_and_identifier "acct" (some 7) (some "example.com") =
      .ok "domain" (.strId "example.com") ∧
    get_service_and_identifier "acct" (some 7) none = .ok "acct" (.intId 7) ∧
    get_service_and_identifier "acct" none none =
      .valueError "You must provide either a \x27site_id\x27 or a \x27domain\x27." := by
  refine ⟨?_, ?_, ?_⟩
  · exact (service_identifier_total "acct" (some 7) (some "example.com")).1
      "example.com" rfl (by decide)
  · exact (service_identifier_total "acct" (some 7) none).2.1 (by decide) 7 rfl (by decide)
  · exact (service_identifier_total "acct" none none).2.2 (by decide) (by decide)

/-! ## Claim C8 -/

/-- Claim C8 (confirmed): for every Task status payload, the parsed Task is
non-terminal exactly when the complete field is absent or the empty string
(the pre-validator maps "" to None before any timestamp parsing can happen),
and terminal exactly otherwise, independent of the values of the meta
counters. -/
theorem task_terminality (task_id : Int) (complete : Option String)
    (meta meta2 : List (String × JVal)) :
    (taskIsTerminal (parseTask task_id complete meta) = false ↔
      (complete = none ∨ complete = some "")) ∧
    (taskIsTerminal (parseTask task_id complete meta) = true ↔
      ¬(complete = none ∨ complete = some "")) ∧
    taskIsTerminal (parseTask task_id complete meta) =
      taskIsTerminal (parseTask task_id complete meta2) := by
  refine ⟨?_, ?_, rfl⟩ <;>
  · cases complete with
    | none => simp [parseTask, validate_complete, taskIsTerminal]
    | some s =>
        by_cases hs : s = "" <;>
          simp [parseTask, validate_complete, taskIsTerminal, hs]

/-! ## Claim C9 -/

/-- Claim C9 (confirmed): the ticket polling loop polls again on every
non-terminal summary status (in particular "running") and stops at the first
summary whose status is "success" or "failure", returning that status; the
returned status is a function of the summary sequence alone, and the detailed
full-log payload is fetched only afterwards (and only in the failure case,
for printing), so determining terminality never requires it. -/
theorem poll_ticket_first_terminal (get_summary : Nat → List (String × JVal))
    (fuel N : Nat)
    (hterm : ticketStatusTerminal (dictGet (get_summary N) "status") = true)
    (hmin : ∀ i, i < N → ticketStatusTerminal (dictGet (get_summary i) "status") = false)
    (hfuel : N < fuel) :
    poll_ticket_status get_summary fuel =
      some { status := dictGet (get_summary N) "status",
             full_log_fetched := statusIsFailure (dictGet (get_summary N) "status") } := by
  have h := pollTicketAux_first get_summary N fuel 0
    (by rw [Nat.zero_add]; exact hterm)
    (by intro k hk; rw [Nat.zero_add]; exact hmin k hk) hfuel
  simpa using h

/-- Witness for poll_ticket_first_terminal: two "running" summaries followed
by a "success" summary; the loop returns "success" at its first occurrence
and never fetches the full log. -/
theorem poll_ticket_first_terminal_witness :
    poll_ticket_status
      (fun i => if i < 2 then [("status", .str "running")] else [("status", .str "success")])
      3 =
      some { status := some (.str "success"), full_log_fetched := false } := by
  have h := poll_ticket_first_terminal
    (fun i => if i < 2 then [("status", .str "running")] else [("status", .str "success")])
    3 2 (by decide) (by decide) (by decide)
  simpa using h

/-! ## Claim C10 -/

/-- Claim C10 (confirmed): identifier presence is decided by truthiness, not
by whether an argument was supplied - site id 0 with no domain, an empty
domain with no site id, and neither at all, all raise the same ValueError, so
a zero site id and the empty-string domain can never reach the network
layer. -/
theorem service_identifier_truthiness :
    get_service_and_identifier "acct" (some 0) none =
      .valueError "You must provide either a \x27site_id\x27 or a \x27domain\x27." ∧
    get_service_and_identifier "acct" none (some "") =
      .valueError "You must provide either a \x27site_id\x27 or a \x27domain\x27." ∧
    get_service_and_identifier "acct" none none =
      .valueError "You must provide either a \x27site_id\x27 or a \x27domain\x27." :=
  ⟨rfl, rfl, rfl⟩

end AtomicSDK
